import Mathlib

/-!
Shallow embedding of `freqtrade/rpc/telegram.py`: the Telegram command /
callback router with its embedded conversation state machine and the
`send_msg` delivery routine.

Modelling conventions:
* Python strings are Lean `String`s.  The Python string methods used by
  the source (`strip`, `upper`, `replace`, `split`, the `in` substring
  test) and `int(...)` / `float(...)` parsing are modelled by
  structurally recursive functions over the character list (`pyStrip`,
  `pyUpper`, `pyReplace`, `pySplit`, `pyContains`, `pyInt`, `pyFloat`),
  so every definition evaluates inside the kernel.
* The module-level mutable globals `_CONF`, `_CONVERSATION`,
  `_UPDATED_COINS` are gathered into an explicit state record `TState`
  threaded through every handler.
* Outbound calls (`send_msg`, `_send_inline_keyboard_markup`,
  `update_config`) are recorded as an ordered `List Effect` trace;
  logging calls are not observable and are elided.
* External collaborators (the `rpc_*` facade, `exchange.validate_pairs`,
  `freqtrade.misc.get_list_type` / `update_config`, the `tabulate`
  library and `__version__`) live in an `Env` record of oracles.
* A Python exception escaping a handler is modelled by the `err` field
  of `HRes`: `some e` means the handler raised `e` after having
  performed the recorded effects and partial state mutations.
  Transport errors raised by `bot.send_message` are all
  `telegram.error.TelegramError` subclasses and are modelled inside the
  dedicated `send_msg` delivery model; at the router level a `send_msg`
  call is recorded as a plain effect.
-/

/-! ### Python string primitives -/

/-- The whitespace characters removed by Python `str.strip()`. -/
def pyWhitespace (c : Char) : Bool :=
  c == ' ' || c == '\t' || c == '\n' || c == '\x0d' ||
  c == '\x0b' || c == '\x0c'

/-- Model of `str.strip()` on the character list. -/
def stripList (l : List Char) : List Char :=
  ((l.dropWhile pyWhitespace).reverse.dropWhile pyWhitespace).reverse

/-- Models Python `s.strip()`. -/
def pyStrip (s : String) : String :=
  ⟨stripList s.data⟩

/-- ASCII upper-casing of one character; the coins and commands this
program handles are ASCII, where Python `str.upper` agrees. -/
def asciiUpperChar (c : Char) : Char :=
  if 'a' ≤ c ∧ c ≤ 'z' then Char.ofNat (c.toNat - 32) else c

/-- Models Python `s.upper()` on ASCII text. -/
def pyUpper (s : String) : String :=
  ⟨s.data.map asciiUpperChar⟩

/-- Split on every non-overlapping occurrence of the nonempty separator
`s0 :: srest`, scanning left to right; `acc` holds the current piece
reversed.  Recursion is driven by a fuel argument (each step consumes at
least one character, so fuel = input length always suffices) to keep the
definition structurally recursive and kernel-reducible. -/
def splitOnFuel (s0 : Char) (srest : List Char) :
    Nat → List Char → List Char → List (List Char)
  | _, [], acc => [acc.reverse]
  | 0, l, acc => [acc.reverse ++ l]
  | fuel+1, c :: rest, acc =>
    if (s0 :: srest).isPrefixOf (c :: rest) then
      acc.reverse :: splitOnFuel s0 srest fuel (rest.drop srest.length) []
    else
      splitOnFuel s0 srest fuel rest (c :: acc)

/-- Split a character list on a nonempty separator. -/
def splitOnList (s0 : Char) (srest : List Char) (l : List Char) :
    List (List Char) :=
  splitOnFuel s0 srest l.length l []

/-- Models Python `s.split(sep)` for a nonempty separator (Python
raises on an empty separator; no call site passes one). -/
def pySplit (s sep : String) : List String :=
  match sep.data with
  | [] => [s]
  | p0 :: prest => (splitOnList p0 prest s.data).map (fun l => ⟨l⟩)

/-- Replace every non-overlapping occurrence of the nonempty pattern
`s0 :: srest` by `repl`, scanning left to right; fuel-driven like
`splitOnFuel`. -/
def replaceFuel (s0 : Char) (srest repl : List Char) :
    Nat → List Char → List Char
  | _, [] => []
  | 0, l => l
  | fuel+1, c :: rest =>
    if (s0 :: srest).isPrefixOf (c :: rest) then
      repl ++ replaceFuel s0 srest repl fuel (rest.drop srest.length)
    else
      c :: replaceFuel s0 srest repl fuel rest

/-- Models Python `s.replace(pat, repl)` for a nonempty pattern. -/
def pyReplace (s pat repl : String) : String :=
  match pat.data with
  | [] => s
  | p0 :: prest => ⟨replaceFuel p0 prest repl.data s.data.length s.data⟩

/-- Does the nonempty pattern `s0 :: srest` occur in the list? -/
def containsAux (s0 : Char) (srest : List Char) : List Char → Bool
  | [] => false
  | c :: rest =>
    (s0 :: srest).isPrefixOf (c :: rest) || containsAux s0 srest rest

/-- Models the Python substring test `pat in s` for a nonempty
pattern. -/
def pyContains (s pat : String) : Bool :=
  match pat.data with
  | [] => true
  | p0 :: prest => containsAux p0 prest s.data

/-- Everything after the first occurrence of the separator, or `none`
when the separator does not occur; this is `s.split(sep, 1)[1]`
together with its index-error guard. -/
def afterFirst (s0 : Char) (srest : List Char) : List Char → Option (List Char)
  | [] => none
  | c :: rest =>
    if (s0 :: srest).isPrefixOf (c :: rest) then some (rest.drop srest.length)
    else afterFirst s0 srest rest

/-- Models `s.split("_", 1)[1]`: everything after the first underscore.
The source only evaluates this when an underscore is present; the
absent case (Python `IndexError`) is mapped to `""` and guarded by
`hasUnderscore` at the one call site that can hit it. -/
def underscoreRest (s : String) : String :=
  match afterFirst '_' [] s.data with
  | some l => ⟨l⟩
  | none => ""

/-- Models `"_" in s`, guarding the partiality of `underscoreRest`. -/
def hasUnderscore (s : String) : Bool :=
  (afterFirst '_' [] s.data).isSome

/-! ### Python numeric literal parsing -/

/-- Digit-string value: `some n` when `cs` is a nonempty run of ASCII
digits, as consumed by Python `int`. -/
def digitsToNat : List Char → Option Nat
  | [] => none
  | cs =>
    if cs.all Char.isDigit then
      some (cs.foldl (fun acc c => acc * 10 + (c.toNat - 48)) 0)
    else
      none

/-- Models Python `int(s)` on ASCII decimal literals: surrounding
whitespace is stripped, an optional single sign is allowed, then a
nonempty digit run.  (`_` digit grouping and non-ASCII digits never
occur in the inputs of this program and are omitted.) -/
def pyInt (s : String) : Option Int :=
  match stripList s.data with
  | '-' :: rest => (digitsToNat rest).map (fun n => -(n : Int))
  | '+' :: rest => (digitsToNat rest).map (fun n => (n : Int))
  | cs => (digitsToNat cs).map (fun n => (n : Int))

/-- Value of a possibly-empty ASCII digit run (one side of the decimal
point in a float literal). -/
def digitsToNat0 (cs : List Char) : Option Nat :=
  if cs.all Char.isDigit then
    some (cs.foldl (fun acc c => acc * 10 + (c.toNat - 48)) 0)
  else
    none

/-- Unsigned decimal mantissa `a`, `a.b`, `a.` or `.b` as a rational. -/
def pyFloatMantissa (cs : List Char) : Option Rat :=
  match splitOnList '.' [] cs with
  | [as] => (digitsToNat as).map (fun n => (n : Rat))
  | [as, bs] =>
    if as.isEmpty ∧ bs.isEmpty then none
    else
      match digitsToNat0 as, digitsToNat0 bs with
      | some a, some b => some ((a : Rat) + (b : Rat) / ((10 : Rat) ^ bs.length))
      | _, _ => none
  | _ => none

/-- Models Python `float(s)` on plain decimal literals (optional sign,
digits with at most one decimal point, surrounding whitespace
stripped).  Exponent, `inf` and `nan` forms never occur in this
inputs of interest to this program and are omitted; the parsed value is
represented exactly as a rational. -/
def pyFloat (s : String) : Option Rat :=
  match stripList s.data with
  | '-' :: rest => (pyFloatMantissa rest).map (fun q => -q)
  | '+' :: rest => pyFloatMantissa rest
  | cs => pyFloatMantissa cs

/-- Model of `build_menu`: chunks the button list into rows of `n_cols`
(the `header_buttons` / `footer_buttons` parameters are never passed by
this module and are omitted).  the Python call `range(0, len, 0)` would raise
for a zero step; every call site passes 1, 2 or 3, and the 0 case is
mapped to the empty menu. -/
def buildMenuFuel {β : Type} : Nat → List β → Nat → List (List β)
  | _, [], _ => []
  | _, _, 0 => []
  | 0, _, _ => []
  | fuel+1, x :: xs, (n+1) =>
    (x :: xs).take (n+1) :: buildMenuFuel fuel ((x :: xs).drop (n+1)) (n+1)

/-- Model of `build_menu` proper (fuel = list length always suffices, since each
row consumes at least one button). -/
def build_menu {β : Type} (buttons : List β) (n_cols : Nat) : List (List β) :=
  buildMenuFuel buttons.length buttons n_cols

/-! ### Data model -/

/-- Model of `get_list_type()` result (`freqtrade.misc.ListType`): whether the
exchange pair list is a static whitelist or a dynamic blacklist;
decided externally, constant during a dialog. -/
inductive ListType
  | STATIC
  | DYNAMIC
deriving DecidableEq, Repr

/-- The `Conversation` enum of the source module. -/
inductive Conversation
  | IDLE
  | MAX_OPEN_TRADES
  | STAKE_AMOUNT
  | UPDATE_COINS
deriving DecidableEq, Repr

/-- Exception classes distinguished by the try/except clauses of the module
clauses: `freqtrade.OperationalException` (caught around
`exchange.validate_pairs`) versus every other exception class. -/
inductive PyErr
  | opEx (msg : String)
  | other (msg : String)
deriving DecidableEq, Repr

/-- The slice of the `_CONF` dict this module reads and writes. -/
structure Conf where
  chat_id : Int
  enabled : Bool
  max_open_trades : Int
  stake_amount : Rat
  stake_currency : String
  fiat_display_currency : String
  pair_whitelist : List String
  pair_blacklist : List String
deriving DecidableEq, Repr

/-- The mutable module globals: `_CONF`, `_CONVERSATION`,
`_UPDATED_COINS`. -/
structure TState where
  conf : Conf
  conversation : Conversation
  updated_coins : List String
deriving DecidableEq, Repr

/-- Observable outbound calls, in program order.  `sendMsg` records a
call to the function `send_msg` of the module; `inlineKeyboard` records
`_send_inline_keyboard_markup` (with `edit = true` when an
`edit_message_query` was supplied), carrying the `build_menu` rows of
(label, callback_data) buttons; `editMessageText` records the direct
`bot.edit_message_text` of the view-config branch; `updateConfig`
records the persistence call `update_config(_CONF)` with the config
passed to it. -/
inductive Effect
  | sendMsg (text : String)
  | inlineKeyboard (edit : Bool) (text : String)
      (menu : List (List (String × String)))
  | editMessageText (text : String)
  | updateConfig (conf : Conf)
deriving DecidableEq, Repr

/-- Result of running a handler: final state, effect trace, and
`err = some e` when a Python exception `e` escaped the handler after
the recorded effects and mutations had happened. -/
structure HRes where
  state : TState
  effects : List Effect
  err : Option PyErr
deriving DecidableEq, Repr

/-- External collaborators: the RPC facade (each `rpc_*` returns an
`(error, payload)` pair, modelled as `Sum.inl errorMessage` /
`Sum.inr payload`), the exchange pair validator, persistence, the
`tabulate` library and numeric rendering.  Opaque payloads are carried
as strings and their tabular / templated rendering is abstracted as
oracle functions, since these libraries are outside the source. -/
structure Env where
  list_type : ListType
  update_config : Conf → Option PyErr
  validate_pairs : List String → Option PyErr
  version : String
  rpc_config : Sum String String
  rpc_trade_status : Sum String (List String)
  rpc_status_table : Sum String String
  rpc_daily_profit : Int → String → String → Sum String String
  rpc_trade_statistics : String → String → Sum String String
  rpc_balance : String → Sum String String
  rpc_start : Sum String String
  rpc_stop : Sum String String
  rpc_forcesell : String → Sum String String
  rpc_performance : Sum String String
  rpc_count : Sum String (List String)
  tabulate : String → String
  render_profit : String → String
  render_balance : String → String
  render_performance : String → String
  render_count : Nat → Int → String
  showAmount : Rat → String

/-! ### Conversation state machine -/

/-- The instruction block repeated in every pair-edit prompt. -/
def editInstructions : String :=
  "∙ Tap on coin to remove from the list.\n" ++
  "∙ Send coin to add to the list.\n" ++
  "∙ Type and send \x27Done\x27 when you are finished to save your changes.\n"

/-- Model of `_send_coins_for_deletion`: sets `_CONVERSATION = UPDATE_COINS`,
then sends (or edits, when a query was supplied) an inline keyboard
with one `x_<coin>` button per working coin, three columns. -/
def _send_coins_for_deletion (st : TState) (message : String) (edit : Bool) :
    TState × List Effect :=
  let st' := { st with conversation := Conversation.UPDATE_COINS }
  let buttons_list := st.updated_coins.map (fun coin => (coin, "x_" ++ coin))
  (st', [Effect.inlineKeyboard edit message (build_menu buttons_list 3)])

/-- Model of `request_input`: prompts for a new value (showing the current one)
and moves the conversation to `conv`.  `curVal` is the rendering of
`_CONF[key]` chosen by the caller. -/
def request_input (title curVal : String) (conv : Conversation) (st : TState) :
    TState × List Effect :=
  ({ st with conversation := conv },
   [Effect.sendMsg ("Okay, give me new value for " ++ title ++ ".\n" ++
     "Current value for " ++ title ++ " is <b>" ++ curVal ++ "</b>")])

/-- Model of `_process_config_update`: persist the mutated config, acknowledge,
reset to idle.  If `update_config` raises, the acknowledgement and the
reset never run and the exception escapes. -/
def _process_config_update (env : Env) (st : TState) : HRes :=
  match env.update_config st.conf with
  | some e => ⟨st, [Effect.updateConfig st.conf], some e⟩
  | none =>
    ⟨{ st with conversation := Conversation.IDLE },
     [Effect.updateConfig st.conf,
      Effect.sendMsg
        "Success! Please wait while I am saving these changes to config file..."],
     none⟩

/-- Model of `_handle_coin_updation`: the `UPDATE_COINS` step — finalize on
"done" (any case), report duplicates, validate-then-append
otherwise. -/
def _handle_coin_updation (env : Env) (st : TState) (text : String) : HRes :=
  let stake_currency := st.conf.stake_currency
  if pyUpper text == "DONE" then
    let new_list := st.updated_coins.map (fun coin => stake_currency ++ "_" ++ coin)
    let st1 :=
      if env.list_type == ListType.STATIC then
        { st with conf := { st.conf with pair_whitelist := new_list } }
      else
        { st with conf := { st.conf with pair_blacklist := new_list } }
    let r := _process_config_update env st1
    match r.err with
    | none => ⟨{ r.state with updated_coins := [] }, r.effects, none⟩
    | some e => ⟨r.state, r.effects, some e⟩
  else
    let coin := pyUpper text
    let list_name := if env.list_type == ListType.STATIC then "Whitelist" else "Blacklist"
    if coin ∈ st.updated_coins then
      ⟨st, [Effect.sendMsg (coin ++ " is already added to " ++ list_name)], none⟩
    else
      match env.validate_pairs [stake_currency ++ "_" ++ coin] with
      | some (PyErr.opEx e) =>
        let r := _send_coins_for_deletion st
          ("✖ Failure! " ++ e ++ "\n\n" ++ editInstructions) false
        ⟨r.1, r.2, none⟩
      | some (PyErr.other m) => ⟨st, [], some (PyErr.other m)⟩
      | none =>
        let st1 := { st with updated_coins := st.updated_coins ++ [coin] }
        let r := _send_coins_for_deletion st1
          ("✔ Added " ++ pyUpper coin ++ " to " ++ list_name ++ ".\n\n" ++
            editInstructions) false
        ⟨r.1, r.2, none⟩

/-- Model of `_message_handler`: routes free text to the active conversation
step; free text while idle falls through every branch and is
ignored. -/
def _message_handler (env : Env) (st : TState) (text : String) : HRes :=
  if st.conversation == Conversation.MAX_OPEN_TRADES then
    match pyInt text with
    | none =>
      ⟨st, [Effect.sendMsg
        "I don\x27t understand that. Please ensure that you are entering a valid number."],
       none⟩
    | some n =>
      _process_config_update env { st with conf := { st.conf with max_open_trades := n } }
  else if st.conversation == Conversation.STAKE_AMOUNT then
    match pyFloat text with
    | none =>
      ⟨st, [Effect.sendMsg
        "I don\x27t understand that. Please ensure that you are entering a valid amount."],
       none⟩
    | some q =>
      _process_config_update env { st with conf := { st.conf with stake_amount := q } }
  else if st.conversation == Conversation.UPDATE_COINS then
    _handle_coin_updation env st text
  else
    ⟨st, [], none⟩

/-- The `edit_pairs` seeding loop: `for pair in list_to_scan:
coin = pair.split("_", 1)[1]; _UPDATED_COINS.append(coin)`.  A pair
without an underscore raises `IndexError` mid-loop, keeping the coins
appended before it. -/
def seedCoins : List String → List String → List String × Option PyErr
  | [], acc => (acc, none)
  | p :: rest, acc =>
    if hasUnderscore p then seedCoins rest (acc ++ [underscoreRest p])
    else (acc, some (PyErr.other "IndexError"))

/-- The remove-a-coin branch of `_callback` (reached for any payload
containing `"x_"`): erase the first occurrence when present and
re-render the grid, otherwise reply that the coin is already gone. -/
def remove_coin_branch (env : Env) (st : TState) (coin : String) : HRes :=
  if coin ∈ st.updated_coins then
    let st1 := { st with updated_coins := st.updated_coins.erase coin }
    let list_type := if env.list_type == ListType.STATIC then "Whitelist" else "Blacklist"
    let r := _send_coins_for_deletion st1
      ("✔ Removed " ++ pyUpper coin ++ " from " ++ list_type ++ ".\n\n" ++
        editInstructions) true
    ⟨r.1, r.2, none⟩
  else
    ⟨st, [Effect.sendMsg (pyUpper coin ++ " has already been removed from the list")],
     none⟩

/-- The view-config message assembled on `rpc_config` success. -/
def viewConfigMessage (env : Env) (conf : Conf) (df_pairs : String) : String :=
  let list_type :=
    if env.list_type == ListType.STATIC then "Whitelisted" else "Blacklisted"
  "∙ <b>Max Open Trades:</b> " ++ toString conf.max_open_trades ++ "\n" ++
  "∙ <b>Stake Amount:</b> " ++ env.showAmount conf.stake_amount ++ " " ++
  conf.stake_currency ++ "\n" ++
  "∙ <b>" ++ list_type ++ " Currencies:</b>\n" ++
  "<pre>" ++ env.tabulate df_pairs ++ "</pre>"

/-- Model of `_callback`: the inline-keyboard callback handler, dispatching on
the raw payload string exactly as the if/elif chain of the source does
(note the final branch tests `"x_" in callback_data`, a substring
containment, and falls through silently on anything else). -/
def _callback (env : Env) (st : TState) (callback_data : String) : HRes :=
  if callback_data == "view_config" then
    match env.rpc_config with
    | Sum.inl err => ⟨st, [Effect.sendMsg err], none⟩
    | Sum.inr df_pairs =>
      ⟨st, [Effect.editMessageText (viewConfigMessage env st.conf df_pairs)], none⟩
  else if callback_data == "edit_config" then
    ⟨st,
     [Effect.inlineKeyboard true "Select your action"
       (build_menu
         [("Edit Max Open Trades", "edit_max_open_trades"),
          ("Edit Stake Amount", "edit_stake_amount"),
          ("Edit Pair " ++
             (if env.list_type == ListType.STATIC then "Whitelist" else "Blacklist"),
           "edit_pairs")] 1)],
     none⟩
  else if callback_data == "edit_max_open_trades" then
    let r := request_input "max open trades" (toString st.conf.max_open_trades)
      Conversation.MAX_OPEN_TRADES st
    ⟨r.1, r.2, none⟩
  else if callback_data == "edit_stake_amount" then
    let r := request_input "stake amount" (env.showAmount st.conf.stake_amount)
      Conversation.STAKE_AMOUNT st
    ⟨r.1, r.2, none⟩
  else if callback_data == "edit_pairs" then
    let list_to_scan :=
      if env.list_type == ListType.STATIC then st.conf.pair_whitelist
      else st.conf.pair_blacklist
    let seeded := seedCoins list_to_scan st.updated_coins
    let st1 := { st with updated_coins := seeded.1 }
    match seeded.2 with
    | some e => ⟨st1, [], some e⟩
    | none =>
      let r := _send_coins_for_deletion st1 editInstructions true
      ⟨r.1, r.2, none⟩
  else if pyContains callback_data "x_" then
    remove_coin_branch env st (underscoreRest callback_data)
  else
    ⟨st, [], none⟩

/-! ### Command handlers -/

/-- The `/daily` lookback computation: parse the text after stripping
the literal "/daily", falling back to 7 on any parse failure. -/
def dailyTimescale (text : String) : Int :=
  match pyInt (pyStrip (pyReplace text "/daily" "")) with
  | some n => n
  | none => 7

/-- Model of `_status_table` (`/status table`). -/
def _status_table (env : Env) (st : TState) (_text : String) : HRes :=
  match env.rpc_status_table with
  | Sum.inl err => ⟨st, [Effect.sendMsg err], none⟩
  | Sum.inr df_statuses =>
    ⟨st, [Effect.sendMsg ("<pre>" ++ env.tabulate df_statuses ++ "</pre>")], none⟩

/-- Model of `_status` (`/status [table]`). -/
def _status (env : Env) (st : TState) (text : String) : HRes :=
  let params := if text == "" then [] else pySplit (pyReplace text "/status" "") " "
  if params.contains "table" then
    _status_table env st text
  else
    match env.rpc_trade_status with
    | Sum.inl err => ⟨st, [Effect.sendMsg err], none⟩
    | Sum.inr trades => ⟨st, trades.map Effect.sendMsg, none⟩

/-- Model of `_config` (`/config`): the entry inline keyboard. -/
def _config (_env : Env) (st : TState) (_text : String) : HRes :=
  ⟨st,
   [Effect.inlineKeyboard false "Okay, What do you want to do with config?"
     (build_menu [("View config", "view_config"), ("Edit config", "edit_config")] 2)],
   none⟩

/-- Model of `_daily` (`/daily <n>`). -/
def _daily (env : Env) (st : TState) (text : String) : HRes :=
  let timescale := dailyTimescale text
  match env.rpc_daily_profit timescale st.conf.stake_currency
      st.conf.fiat_display_currency with
  | Sum.inl err => ⟨st, [Effect.sendMsg err], none⟩
  | Sum.inr stats =>
    ⟨st, [Effect.sendMsg ("<b>Daily Profit over the last " ++ toString timescale ++
      " days</b>:\n<pre>" ++ env.tabulate stats ++ "</pre>")], none⟩

/-- Model of `_profit` (`/profit`); the markdown template applied to the opaque
statistics payload is abstracted as `env.render_profit`. -/
def _profit (env : Env) (st : TState) (_text : String) : HRes :=
  match env.rpc_trade_statistics st.conf.stake_currency st.conf.fiat_display_currency with
  | Sum.inl err => ⟨st, [Effect.sendMsg err], none⟩
  | Sum.inr stats => ⟨st, [Effect.sendMsg (env.render_profit stats)], none⟩

/-- Model of `_balance` (`/balance`). -/
def _balance (env : Env) (st : TState) (_text : String) : HRes :=
  match env.rpc_balance st.conf.fiat_display_currency with
  | Sum.inl _ => ⟨st, [Effect.sendMsg "`All balances are zero.`"], none⟩
  | Sum.inr result => ⟨st, [Effect.sendMsg (env.render_balance result)], none⟩

/-- Model of `_start` (`/start`): replies only when the backend reports an
error. -/
def _start (env : Env) (st : TState) (_text : String) : HRes :=
  match env.rpc_start with
  | Sum.inl msg => ⟨st, [Effect.sendMsg msg], none⟩
  | Sum.inr _ => ⟨st, [], none⟩

/-- Model of `_stop` (`/stop`): always forwards the backend message. -/
def _stop (env : Env) (st : TState) (_text : String) : HRes :=
  match env.rpc_stop with
  | Sum.inl msg => ⟨st, [Effect.sendMsg msg], none⟩
  | Sum.inr msg => ⟨st, [Effect.sendMsg msg], none⟩

/-- Model of `_forcesell` (`/forcesell <id>`): replies only when the backend
reports an error. -/
def _forcesell (env : Env) (st : TState) (text : String) : HRes :=
  let trade_id := pyStrip (pyReplace text "/forcesell" "")
  match env.rpc_forcesell trade_id with
  | Sum.inl message => ⟨st, [Effect.sendMsg message], none⟩
  | Sum.inr _ => ⟨st, [], none⟩

/-- Model of `_performance` (`/performance`). -/
def _performance (env : Env) (st : TState) (_text : String) : HRes :=
  match env.rpc_performance with
  | Sum.inl err => ⟨st, [Effect.sendMsg err], none⟩
  | Sum.inr trades =>
    ⟨st, [Effect.sendMsg ("<b>Performance:</b>\n" ++ env.render_performance trades)],
     none⟩

/-- Model of `_count` (`/count`). -/
def _count (env : Env) (st : TState) (_text : String) : HRes :=
  match env.rpc_count with
  | Sum.inl err => ⟨st, [Effect.sendMsg err], none⟩
  | Sum.inr trades =>
    ⟨st, [Effect.sendMsg ("<pre>" ++
      env.render_count trades.length st.conf.max_open_trades ++ "</pre>")], none⟩

/-- The fixed `/help` text. -/
def helpText : String :=
  "\n*/start:* `Starts the trader`\n*/stop:* `Stops the trader`\n" ++
  "*/status [table]:* `Lists all open trades`\n" ++
  "            *table :* `will display trades in a table`\n" ++
  "*/profit:* `Lists cumulative profit from all finished trades`\n" ++
  "*/forcesell <trade_id>|all:* `Instantly sells the given trade or all trades, regardless of profit`\n" ++
  "*/performance:* `Show performance of each finished trade grouped by pair`\n" ++
  "*/daily <n>:* `Shows profit or loss per day, over the last n days`\n" ++
  "*/count:* `Show number of trades running compared to allowed number of trades`\n" ++
  "*/balance:* `Show account balance per currency`\n" ++
  "*/help:* `This help message`\n*/version:* `Show version`\n    "

/-- Model of `_help` (`/help`). -/
def _help (_env : Env) (st : TState) (_text : String) : HRes :=
  ⟨st, [Effect.sendMsg helpText], none⟩

/-- Model of `_version` (`/version`). -/
def _version (env : Env) (st : TState) (_text : String) : HRes :=
  ⟨st, [Effect.sendMsg ("*Version:* `" ++ env.version ++ "`")], none⟩

/-! ### Authorization gate and dispatcher -/

/-- Model of `authorized_only`: the decorator wrapped around each of the twelve
command handlers at definition time.  On a sender mismatch it logs and
returns without calling the handler (the Python `return wrapper`
returns the closure itself — no message, no mutation); on a match it
runs the handler inside `try ... except BaseException`, so no
exception escapes the wrapper. -/
def authorized_only (command_handler : Env → TState → String → HRes)
    (env : Env) (st : TState) (sender : Int) (text : String) : HRes :=
  if sender ≠ st.conf.chat_id then
    ⟨st, [], none⟩
  else
    let r := command_handler env st text
    match r.err with
    | some _ => ⟨r.state, r.effects, none⟩
    | none => r

/-- Inbound events, shape only: a recognized `/token` command message,
a callback-button press, or plain free text. -/
inductive Event
  | cmd (sender : Int) (token : String) (text : String)
  | callbackQuery (sender : Int) (payload : String)
  | textMsg (sender : Int) (text : String)
deriving DecidableEq, Repr

/-- The command registrations of `init` (each handler listed here was
already wrapped by the `@authorized_only` decorator when defined). -/
def commandHandlers : List (String × (Env → TState → String → HRes)) :=
  [("status", _status), ("profit", _profit), ("balance", _balance),
   ("start", _start), ("stop", _stop), ("forcesell", _forcesell),
   ("performance", _performance), ("daily", _daily), ("count", _count),
   ("config", _config), ("help", _help), ("version", _version)]

/-- The dispatcher wired up by `init`: command events run their handler
through `authorized_only`; `CallbackQueryHandler(_callback)` and
`MessageHandler(Filters.text, _message_handler)` are registered as-is —
the source applies no authorization wrapper to those two. -/
def dispatch (env : Env) (st : TState) : Event → HRes
  | Event.cmd sender token text =>
    match commandHandlers.lookup token with
    | some h => authorized_only h env st sender text
    | none => ⟨st, [], none⟩
  | Event.callbackQuery _sender payload => _callback env st payload
  | Event.textMsg _sender text => _message_handler env st text

/-! ### Delivery layer -/

/-- Transport error classes raised by `bot.send_message`:
`telegram.error.NetworkError` is a subclass of
`telegram.error.TelegramError`, so both variants are TelegramErrors. -/
inductive TgErr
  | network (msg : String)
  | telegram (msg : String)
deriving DecidableEq, Repr

/-- Both modelled transport error classes derive `TelegramError`. -/
def isTelegramError : TgErr → Bool
  | _ => true

/-- One `bot.send_message` invocation with the arguments it was given
(the fixed quick-command reply keyboard is attached to every attempt
and carries no information, so it is elided from the record). -/
structure SendAttempt where
  chat_id : Int
  msg : String
  parse_mode : String
deriving DecidableEq, Repr

/-- Model of `send_msg`: delivery model.  `outcome i` is what the transport does
to attempt number `i` (`none` = delivered).  Returns the attempts made,
in order, and the error the caller sees (`none` = returns normally).
The structure mirrors the source: an early return when disabled, an
inner `try` whose `except NetworkError` retries once with identical
arguments, and an outer `except TelegramError` that logs and gives
up. -/
def send_msg (enabled : Bool) (chat_id : Int) (outcome : Nat → Option TgErr)
    (msg : String) (parse_mode : String) : List SendAttempt × Option TgErr :=
  if ¬ enabled then
    ([], none)
  else
    let attempt : SendAttempt := ⟨chat_id, msg, parse_mode⟩
    let inner : List SendAttempt × Option TgErr :=
      match outcome 0 with
      | none => ([attempt], none)
      | some (TgErr.network _) =>
        match outcome 1 with
        | none => ([attempt, attempt], none)
        | some e => ([attempt, attempt], some e)
      | some (TgErr.telegram m) => ([attempt], some (TgErr.telegram m))
    match inner.2 with
    | some e => if isTelegramError e then (inner.1, none) else (inner.1, some e)
    | none => (inner.1, none)

/-! ### Concrete fixtures used by counterexamples and witnesses -/

/-- A well-formed configuration with authorized chat id 123. -/
def conf0 : Conf :=
  { chat_id := 123, enabled := true, max_open_trades := 3,
    stake_amount := 1, stake_currency := "BTC",
    fiat_display_currency := "USD", pair_whitelist := ["BTC_ETH"],
    pair_blacklist := [] }

/-- A benign environment: every collaborator succeeds. -/
def env0 : Env :=
  { list_type := ListType.STATIC
    update_config := fun _ => none
    validate_pairs := fun _ => none
    version := "0.15.1"
    rpc_config := Sum.inr "cfg"
    rpc_trade_status := Sum.inr []
    rpc_status_table := Sum.inr "t"
    rpc_daily_profit := fun _ _ _ => Sum.inr "d"
    rpc_trade_statistics := fun _ _ => Sum.inr "s"
    rpc_balance := fun _ => Sum.inr "b"
    rpc_start := Sum.inr "started"
    rpc_stop := Sum.inr "stopped"
    rpc_forcesell := fun _ => Sum.inr "sold"
    rpc_performance := Sum.inr "p"
    rpc_count := Sum.inr []
    tabulate := fun s => s
    render_profit := fun s => s
    render_balance := fun s => s
    render_performance := fun s => s
    render_count := fun _ _ => ""
    showAmount := fun _ => "1" }

/-- Variant of `env0` with a persistence layer that raises (e.g. an `OSError`
while writing the config file). -/
def envRaise : Env :=
  { env0 with update_config := fun _ => some (PyErr.other "OSError") }

/-- Idle session. -/
def st0 : TState := ⟨conf0, Conversation.IDLE, []⟩

/-- Session awaiting a max-open-trades value. -/
def stMax : TState := ⟨conf0, Conversation.MAX_OPEN_TRADES, []⟩

/-- Session awaiting a stake-amount value. -/
def stStake : TState := ⟨conf0, Conversation.STAKE_AMOUNT, []⟩

/-- Session in the pair-edit dialog with two working coins. -/
def stCoins : TState := ⟨conf0, Conversation.UPDATE_COINS, ["ETH", "LTC"]⟩

/-- Session in the pair-edit dialog whose working list contains the
lower-case coin "open". -/
def stOpen : TState := ⟨conf0, Conversation.UPDATE_COINS, ["open"]⟩

/-! ### Helper lemmas: command handlers never touch the session state -/

theorem _status_table_state (env : Env) (st : TState) (text : String) :
    (_status_table env st text).state = st := by
  unfold _status_table; split <;> rfl

theorem _status_state (env : Env) (st : TState) (text : String) :
    (_status env st text).state = st := by
  unfold _status
  dsimp only
  repeat' split
  all_goals first
    | exact _status_table_state env st text
    | rfl

theorem _config_state (env : Env) (st : TState) (text : String) :
    (_config env st text).state = st := rfl

theorem _daily_state (env : Env) (st : TState) (text : String) :
    (_daily env st text).state = st := by
  unfold _daily; dsimp only; split <;> rfl

theorem _profit_state (env : Env) (st : TState) (text : String) :
    (_profit env st text).state = st := by
  unfold _profit; split <;> rfl

theorem _balance_state (env : Env) (st : TState) (text : String) :
    (_balance env st text).state = st := by
  unfold _balance; split <;> rfl

theorem _start_state (env : Env) (st : TState) (text : String) :
    (_start env st text).state = st := by
  unfold _start; split <;> rfl

theorem _stop_state (env : Env) (st : TState) (text : String) :
    (_stop env st text).state = st := by
  unfold _stop; split <;> rfl

theorem _forcesell_state (env : Env) (st : TState) (text : String) :
    (_forcesell env st text).state = st := by
  unfold _forcesell; dsimp only; split <;> rfl

theorem _performance_state (env : Env) (st : TState) (text : String) :
    (_performance env st text).state = st := by
  unfold _performance; split <;> rfl

theorem _count_state (env : Env) (st : TState) (text : String) :
    (_count env st text).state = st := by
  unfold _count; split <;> rfl

theorem _help_state (env : Env) (st : TState) (text : String) :
    (_help env st text).state = st := rfl

theorem _version_state (env : Env) (st : TState) (text : String) :
    (_version env st text).state = st := rfl

/-- Every handler registered in `commandHandlers` leaves the session
state unchanged. -/
theorem commandHandlers_state (token : String)
    (h : Env → TState → String → HRes)
    (hl : commandHandlers.lookup token = some h) :
    ∀ e s t, (h e s t).state = s := by
  simp only [commandHandlers, List.lookup] at hl
  repeat' split at hl
  all_goals cases hl
  · exact _status_state
  · exact _profit_state
  · exact _balance_state
  · exact _start_state
  · exact _stop_state
  · exact _forcesell_state
  · exact _performance_state
  · exact _daily_state
  · exact _count_state
  · exact _config_state
  · exact _help_state
  · exact _version_state

/-- The gate preserves the session state whenever the wrapped handler
does. -/
theorem authorized_only_state (h : Env → TState → String → HRes)
    (hh : ∀ e s t, (h e s t).state = s)
    (env : Env) (st : TState) (sender : Int) (text : String) :
    (authorized_only h env st sender text).state = st := by
  unfold authorized_only
  split
  · rfl
  · dsimp only
    split <;> simp [hh]

/-- No exception ever escapes the gate. -/
theorem authorized_only_err (h : Env → TState → String → HRes)
    (env : Env) (st : TState) (sender : Int) (text : String) :
    (authorized_only h env st sender text).err = none := by
  unfold authorized_only
  split
  · rfl
  · dsimp only
    split
    · rfl
    · assumption

/-- Dispatching any command event leaves the session state unchanged. -/
theorem dispatch_cmd_state (env : Env) (st : TState) (sender : Int)
    (token text : String) :
    (dispatch env st (Event.cmd sender token text)).state = st := by
  rcases hl : commandHandlers.lookup token with _ | h
  · simp only [dispatch, hl]
  · simp only [dispatch, hl]
    exact authorized_only_state h (commandHandlers_state token h hl) env st sender text

/-! ### Claims -/

/-- C1 counterexample: the free-text handler is registered without the
authorization gate, so an event from the unauthorized sender 999
(configured chat id is 123) mutates the session and the config and
sends replies — refuting the claim that every inbound event kind is
gated. -/
theorem C1_counterexample :
    (999 : Int) ≠ conf0.chat_id ∧
    (dispatch env0 stMax (Event.textMsg 999 "5")).state.conf.max_open_trades = 5 ∧
    (dispatch env0 stMax (Event.textMsg 999 "5")).state.conversation =
      Conversation.IDLE ∧
    (dispatch env0 stMax (Event.textMsg 999 "5")).effects ≠ [] := by
  decide

/-- C1 (amended): the authorization discard guarantee holds for the
twelve text-command handlers — a command event whose sender differs
from the configured chat id produces no reply, no state mutation and no
error — while callback and free-text events are dispatched to their
handlers without any authorization check. -/
theorem C1_commands_gated (env : Env) (st : TState) (sender : Int)
    (token text : String) (h : sender ≠ st.conf.chat_id) :
    dispatch env st (Event.cmd sender token text) = ⟨st, [], none⟩ := by
  rcases hl : commandHandlers.lookup token with _ | hdl
  · simp only [dispatch, hl]
  · simp only [dispatch, hl]
    unfold authorized_only
    rw [if_pos h]

/-- C1 witness: the amended gate theorem at a concrete unauthorized
command event. -/
theorem C1_commands_gated_witness :
    dispatch env0 st0 (Event.cmd 999 "status" "/status") = ⟨st0, [], none⟩ :=
  C1_commands_gated env0 st0 999 "status" "/status" (by decide)

/-- C3 counterexample: an exception raised inside the free-text
conversation handler (here the persistence call raising while
committing "5" in the max-open-trades dialog) propagates out of the
dispatcher, because `_message_handler` is registered without the
`authorized_only` wrapper — refuting the claim that every handler kind
is fault-bounded by the gate. -/
theorem C3_counterexample :
    (dispatch envRaise stMax (Event.textMsg 123 "5")).err =
      some (PyErr.other "OSError") := by
  decide

/-- C3 (amended): the gate is a failure boundary for whatever handler
it wraps — no exception ever escapes `authorized_only`, and hence no
text-command dispatch ever reports an escaped exception; the callback
and free-text handlers, registered outside the gate, enjoy no such
guarantee (see the counterexample). -/
theorem C3_gate_boundary (env : Env) (st : TState) (sender : Int)
    (token text : String) (h : Env → TState → String → HRes) :
    (authorized_only h env st sender text).err = none ∧
    (dispatch env st (Event.cmd sender token text)).err = none := by
  constructor
  · exact authorized_only_err h env st sender text
  · rcases hl : commandHandlers.lookup token with _ | hdl
    · simp only [dispatch, hl]
    · simp only [dispatch, hl]
      exact authorized_only_err hdl env st sender text

/-- C7: `send_msg` never signals an error to its caller; a transient
(NetworkError) first failure triggers exactly one retry with identical
arguments (two attempts total, also when the retry fails again); a
non-transient TelegramError first failure makes exactly one attempt. -/
theorem C7_send_retry (chat_id : Int) (outcome : Nat → Option TgErr)
    (msg parse_mode m : String) :
    (send_msg true chat_id outcome msg parse_mode).2 = none ∧
    (outcome 0 = some (TgErr.network m) →
      (send_msg true chat_id outcome msg parse_mode).1 =
        [⟨chat_id, msg, parse_mode⟩, ⟨chat_id, msg, parse_mode⟩]) ∧
    (outcome 0 = some (TgErr.telegram m) →
      (send_msg true chat_id outcome msg parse_mode).1 =
        [⟨chat_id, msg, parse_mode⟩]) := by
  unfold send_msg
  rcases h0 : outcome 0 with _ | e0
  · simp [h0, isTelegramError]
  · rcases e0 with m0 | m0
    · rcases h1 : outcome 1 with _ | e1 <;>
        simp [h0, h1, isTelegramError]
    · simp [h0, isTelegramError]

/-- C7 witness: two consecutive transient failures make exactly two
identical delivery attempts. -/
theorem C7_send_retry_witness :
    (send_msg true 123 (fun _ => some (TgErr.network "reset")) "hello"
      "Markdown").1 = [⟨123, "hello", "Markdown"⟩, ⟨123, "hello", "Markdown"⟩] :=
  (C7_send_retry 123 (fun _ => some (TgErr.network "reset")) "hello" "Markdown"
    "reset").2.1 rfl

/-- C8: the `/daily` lookback is 7 with no argument, 3 for "/daily 3",
7 for the malformed "/daily abc"; in general a parsed integer argument
is used as-is and every parse failure falls back to 7. -/
theorem C8_daily_fallback :
    dailyTimescale "/daily" = 7 ∧
    dailyTimescale "/daily 3" = 3 ∧
    dailyTimescale "/daily abc" = 7 ∧
    (∀ s : String, pyInt (pyStrip (pyReplace s "/daily" "")) = none →
      dailyTimescale s = 7) ∧
    (∀ s : String, ∀ n : Int, pyInt (pyStrip (pyReplace s "/daily" "")) = some n →
      dailyTimescale s = n) := by
  refine ⟨by decide, by decide, by decide, ?_, ?_⟩
  · intro s h; unfold dailyTimescale; rw [h]
  · intro s n h; unfold dailyTimescale; rw [h]

/-- C8 witness: the general parsed-argument clause at "/daily 42". -/
theorem C8_daily_fallback_witness : dailyTimescale "/daily 42" = 42 :=
  C8_daily_fallback.2.2.2.2 "/daily 42" 42 (by decide)

/-- C10: for `/start` and `/forcesell` from the authorized sender, a
reply is sent iff the backend reports an error, and that reply is the
message supplied by the backend; on success these commands send nothing. -/
theorem C10_start_forcesell_reply_iff_error (env : Env) (st : TState)
    (sender : Int) (textS textF : String) (hs : sender = st.conf.chat_id) :
    ((dispatch env st (Event.cmd sender "start" textS)).effects = [] ↔
      env.rpc_start.isRight = true) ∧
    (∀ m, env.rpc_start = Sum.inl m →
      (dispatch env st (Event.cmd sender "start" textS)).effects =
        [Effect.sendMsg m]) ∧
    ((dispatch env st (Event.cmd sender "forcesell" textF)).effects = [] ↔
      (env.rpc_forcesell (pyStrip (pyReplace textF "/forcesell" ""))).isRight =
        true) ∧
    (∀ m, env.rpc_forcesell (pyStrip (pyReplace textF "/forcesell" "")) =
        Sum.inl m →
      (dispatch env st (Event.cmd sender "forcesell" textF)).effects =
        [Effect.sendMsg m]) := by
  have hstart : commandHandlers.lookup "start" = some _start := rfl
  have hforce : commandHandlers.lookup "forcesell" = some _forcesell := rfl
  have hgate : ¬ sender ≠ st.conf.chat_id := by simp [hs]
  refine ⟨?_, ?_, ?_, ?_⟩
  · simp only [dispatch, hstart]
    unfold authorized_only _start
    rw [if_neg hgate]
    rcases env.rpc_start with msg | msg <;> simp
  · intro m hm
    simp only [dispatch, hstart]
    unfold authorized_only _start
    rw [if_neg hgate, hm]
  · simp only [dispatch, hforce]
    unfold authorized_only _forcesell
    rw [if_neg hgate]
    dsimp only
    rcases env.rpc_forcesell (pyStrip (pyReplace textF "/forcesell" "")) with
      msg | msg <;> simp
  · intro m hm
    simp only [dispatch, hforce]
    unfold authorized_only _forcesell
    rw [if_neg hgate]
    dsimp only
    rw [hm]

/-- C10 witness: concrete authorized `/start` with a succeeding backend
sends nothing. -/
theorem C10_start_forcesell_reply_iff_error_witness :
    (dispatch env0 st0 (Event.cmd 123 "start" "/start")).effects = [] :=
  (C10_start_forcesell_reply_iff_error env0 st0 123 "/start" "/forcesell 1"
    (by decide)).1.mpr (by decide)

/-- C4 counterexample: the payload "max_open" is none of the five
recognized tokens and does not begin with "x_", yet it is parsed as a
remove action (the source tests `"x_" in callback_data`, a substring
match, and takes the symbol after the first underscore): with "open" in
the working list, the pair is removed and a reply is produced instead
of the payload being ignored. -/
theorem C4_counterexample :
    ("x_".data.isPrefixOf "max_open".data) = false ∧
    ("max_open" ∈ ["view_config", "edit_config", "edit_max_open_trades",
      "edit_stake_amount", "edit_pairs"]) = False ∧
    (_callback env0 stOpen "max_open").state.updated_coins = [] ∧
    (_callback env0 stOpen "max_open").effects ≠ [] := by
  refine ⟨by decide, by simp, by decide, by decide⟩

/-- C4 (amended): for payloads that are none of the five exact tokens,
the callback handler takes the remove-pair branch iff the payload
CONTAINS "x_" as a substring (not merely as a prefix), with the symbol
taken as everything after the first underscore (for a payload that does
begin with "x_", such as "x_BTC", that is exactly the remainder after
the prefix); payloads without an "x_" occurrence are ignored. -/
theorem C4_remove_parse (env : Env) (st : TState) (payload : String)
    (h1 : payload ≠ "view_config") (h2 : payload ≠ "edit_config")
    (h3 : payload ≠ "edit_max_open_trades")
    (h4 : payload ≠ "edit_stake_amount") (h5 : payload ≠ "edit_pairs") :
    (pyContains payload "x_" = true →
      _callback env st payload = remove_coin_branch env st (underscoreRest payload)) ∧
    (pyContains payload "x_" = false →
      _callback env st payload = ⟨st, [], none⟩) ∧
    underscoreRest "x_BTC" = "BTC" := by
  refine ⟨?_, ?_, by decide⟩ <;> intro hc <;>
    unfold _callback <;>
    simp [beq_iff_eq, h1, h2, h3, h4, h5, hc]

/-- C4 witness: the amended parse theorem at the concrete prefix
payload "x_BTC". -/
theorem C4_remove_parse_witness :
    _callback env0 st0 "x_BTC" = remove_coin_branch env0 st0 (underscoreRest "x_BTC") :=
  (C4_remove_parse env0 st0 "x_BTC" (by decide) (by decide) (by decide)
    (by decide) (by decide)).1 (by decide)

/-- C5: finishing the pair-edit dialog with free text equal to "done"
in any letter case writes exactly `{stakeCurrency}_{symbol}` for the
symbols then in the working list, in order, into the whitelist (static
mode) or blacklist (dynamic mode) field, clears the working list, and
returns the conversation to idle (given that persistence succeeds). -/
theorem C5_done_finalizes (env : Env) (st : TState) (text : String)
    (hconv : st.conversation = Conversation.UPDATE_COINS)
    (hdone : pyUpper text = "DONE")
    (hok : ∀ c, env.update_config c = none) :
    (if env.list_type = ListType.STATIC
      then (_message_handler env st text).state.conf.pair_whitelist
      else (_message_handler env st text).state.conf.pair_blacklist) =
      st.updated_coins.map (fun coin => st.conf.stake_currency ++ "_" ++ coin) ∧
    (_message_handler env st text).state.updated_coins = [] ∧
    (_message_handler env st text).state.conversation = Conversation.IDLE := by
  rcases st with ⟨cf, cv, coins⟩
  dsimp only at hconv
  subst hconv
  have hm : _message_handler env ⟨cf, Conversation.UPDATE_COINS, coins⟩ text =
      _handle_coin_updation env ⟨cf, Conversation.UPDATE_COINS, coins⟩ text := rfl
  rw [hm]
  unfold _handle_coin_updation
  dsimp only
  rw [hdone]
  simp only [beq_self_eq_true, if_true]
  unfold _process_config_update
  cases env.list_type <;> simp [hok]

/-- C5 witness: a concrete "Done" (mixed case) in a session holding
["ETH", "LTC"] commits ["BTC_ETH", "BTC_LTC"] to the whitelist. -/
theorem C5_done_finalizes_witness :
    (if env0.list_type = ListType.STATIC
      then (_message_handler env0 stCoins "Done").state.conf.pair_whitelist
      else (_message_handler env0 stCoins "Done").state.conf.pair_blacklist) =
      stCoins.updated_coins.map
        (fun coin => stCoins.conf.stake_currency ++ "_" ++ coin) ∧
    (_message_handler env0 stCoins "Done").state.updated_coins = [] ∧
    (_message_handler env0 stCoins "Done").state.conversation =
      Conversation.IDLE :=
  C5_done_finalizes env0 stCoins "Done" (by decide) (by decide) (fun _ => rfl)

/-- C6: in the max-open-trades dialog, non-integer input produces
exactly the re-prompt message and leaves session and config unchanged,
while integer input `n` sets `max_open_trades := n`, emits the
persistence call followed by the acknowledgement message, and returns
the conversation to idle (given that persistence succeeds). -/
theorem C6_max_trades_step (env : Env) (st : TState) (bad good : String)
    (n : Int) (hconv : st.conversation = Conversation.MAX_OPEN_TRADES)
    (hbad : pyInt bad = none) (hgood : pyInt good = some n)
    (hok : ∀ c, env.update_config c = none) :
    _message_handler env st bad =
      ⟨st, [Effect.sendMsg
        "I don\x27t understand that. Please ensure that you are entering a valid number."],
       none⟩ ∧
    _message_handler env st good =
      ⟨⟨{ st.conf with max_open_trades := n }, Conversation.IDLE, st.updated_coins⟩,
       [Effect.updateConfig { st.conf with max_open_trades := n },
        Effect.sendMsg
          "Success! Please wait while I am saving these changes to config file..."],
       none⟩ := by
  rcases st with ⟨cf, cv, coins⟩
  dsimp only at hconv
  subst hconv
  constructor
  · have hm : _message_handler env ⟨cf, Conversation.MAX_OPEN_TRADES, coins⟩ bad =
        match pyInt bad with
        | none =>
          ⟨⟨cf, Conversation.MAX_OPEN_TRADES, coins⟩, [Effect.sendMsg
            "I don\x27t understand that. Please ensure that you are entering a valid number."],
           none⟩
        | some n' =>
          _process_config_update env
            ⟨{ cf with max_open_trades := n' }, Conversation.MAX_OPEN_TRADES, coins⟩ := rfl
    rw [hm, hbad]
  · have hm : _message_handler env ⟨cf, Conversation.MAX_OPEN_TRADES, coins⟩ good =
        match pyInt good with
        | none =>
          ⟨⟨cf, Conversation.MAX_OPEN_TRADES, coins⟩, [Effect.sendMsg
            "I don\x27t understand that. Please ensure that you are entering a valid number."],
           none⟩
        | some n' =>
          _process_config_update env
            ⟨{ cf with max_open_trades := n' }, Conversation.MAX_OPEN_TRADES, coins⟩ := rfl
    rw [hm, hgood]
    dsimp only
    unfold _process_config_update
    rw [hok]

/-- C6 witness: the dialog step at the concrete inputs "abc" and "5". -/
theorem C6_max_trades_step_witness :
    _message_handler env0 stMax "abc" =
      ⟨stMax, [Effect.sendMsg
        "I don\x27t understand that. Please ensure that you are entering a valid number."],
       none⟩ ∧
    _message_handler env0 stMax "5" =
      ⟨⟨{ stMax.conf with max_open_trades := 5 }, Conversation.IDLE,
        stMax.updated_coins⟩,
       [Effect.updateConfig { stMax.conf with max_open_trades := 5 },
        Effect.sendMsg
          "Success! Please wait while I am saving these changes to config file..."],
       none⟩ :=
  C6_max_trades_step env0 stMax "abc" "5" 5 (by decide) (by decide) (by decide)
    (fun _ => rfl)

/-- C9 counterexample: the conversation commits the negative value -3
into `max_open_trades` (the persistence call carries it and the session
keeps it), refuting the claimed `maxOpenTrades ≥ 0` bound on committed
values. -/
theorem C9_counterexample :
    (_message_handler env0 stMax "-3").state.conf.max_open_trades = -3 ∧
    (_message_handler env0 stMax "-3").effects =
      [Effect.updateConfig { conf0 with max_open_trades := -3 },
       Effect.sendMsg
         "Success! Please wait while I am saving these changes to config file..."] ∧
    ¬ (0 : Int) ≤ (_message_handler env0 stMax "-3").state.conf.max_open_trades := by
  decide

/-- C9 (amended): the edit conversations perform no bounds validation —
whatever integer the max-open-trades input parses to, and whatever
number the stake-amount input parses to (negative values included), is
stored in the config snapshot verbatim. -/
theorem C9_no_bounds_check (env : Env) (st1 st2 : TState) (s t : String)
    (n : Int) (q : Rat)
    (h1 : st1.conversation = Conversation.MAX_OPEN_TRADES)
    (hn : pyInt s = some n)
    (h2 : st2.conversation = Conversation.STAKE_AMOUNT)
    (hq : pyFloat t = some q) :
    (_message_handler env st1 s).state.conf.max_open_trades = n ∧
    (_message_handler env st2 t).state.conf.stake_amount = q := by
  constructor
  · rcases st1 with ⟨cf, cv, coins⟩
    dsimp only at h1
    subst h1
    have hm : _message_handler env ⟨cf, Conversation.MAX_OPEN_TRADES, coins⟩ s =
        match pyInt s with
        | none =>
          ⟨⟨cf, Conversation.MAX_OPEN_TRADES, coins⟩, [Effect.sendMsg
            "I don\x27t understand that. Please ensure that you are entering a valid number."],
           none⟩
        | some n' =>
          _process_config_update env
            ⟨{ cf with max_open_trades := n' }, Conversation.MAX_OPEN_TRADES, coins⟩ := rfl
    rw [hm, hn]
    dsimp only
    unfold _process_config_update
    split <;> rfl
  · rcases st2 with ⟨cf, cv, coins⟩
    dsimp only at h2
    subst h2
    have hm : _message_handler env ⟨cf, Conversation.STAKE_AMOUNT, coins⟩ t =
        match pyFloat t with
        | none =>
          ⟨⟨cf, Conversation.STAKE_AMOUNT, coins⟩, [Effect.sendMsg
            "I don\x27t understand that. Please ensure that you are entering a valid amount."],
           none⟩
        | some q' =>
          _process_config_update env
            ⟨{ cf with stake_amount := q' }, Conversation.STAKE_AMOUNT, coins⟩ := rfl
    rw [hm, hq]
    dsimp only
    unfold _process_config_update
    split <;> rfl

/-- C9 witness: the amended theorem at the negative inputs "-3" and
"-2". -/
theorem C9_no_bounds_check_witness :
    (_message_handler env0 stMax "-3").state.conf.max_open_trades = -3 ∧
    (_message_handler env0 stStake "-2").state.conf.stake_amount = -2 :=
  C9_no_bounds_check env0 stMax stStake "-3" "-2" (-3) (-2) (by decide)
    (by decide) (by decide) (by decide)

/-! ### C2: duplicate-freedom of the working pair list -/

theorem _process_config_update_coins (env : Env) (st : TState) :
    (_process_config_update env st).state.updated_coins = st.updated_coins := by
  unfold _process_config_update; split <;> rfl

/-- Every `UPDATE_COINS` text step (finalize, duplicate reply, add)
preserves duplicate-freedom of the working list. -/
theorem _handle_coin_updation_nodup (env : Env) (st : TState) (text : String)
    (hno : st.updated_coins.Nodup) :
    ((_handle_coin_updation env st text).state.updated_coins).Nodup := by
  unfold _handle_coin_updation
  dsimp only
  split
  · -- "done": commit then clear (or keep the untouched list if the
    -- persistence call raised)
    split
    · simp
    · rw [_process_config_update_coins]
      split <;> exact hno
  · -- candidate coin
    split
    · exact hno
    · rename_i hmem
      split
      · exact hno
      · exact hno
      · simp only [_send_coins_for_deletion]
        simp [List.nodup_append, hno]
        intro h
        exact hmem (by simp [h])

/-- The remove-pair branch preserves duplicate-freedom. -/
theorem remove_coin_branch_nodup (env : Env) (st : TState) (coin : String)
    (hno : st.updated_coins.Nodup) :
    ((remove_coin_branch env st coin).state.updated_coins).Nodup := by
  unfold remove_coin_branch
  dsimp only
  split
  · exact List.Nodup.erase coin hno
  · exact hno

/-- C2 counterexample: pressing the `edit_pairs` button twice (the
seeding loop appends the configured list without clearing or
deduplicating) leaves the working list with a duplicate "ETH",
refuting the claim that every operation of the state machine preserves
the no-duplicates invariant. -/
theorem C2_counterexample :
    st0.updated_coins.Nodup ∧
    (dispatch env0
      (dispatch env0 st0 (Event.callbackQuery 123 "edit_pairs")).state
      (Event.callbackQuery 123 "edit_pairs")).state.updated_coins =
        ["ETH", "ETH"] ∧
    ¬ (dispatch env0
      (dispatch env0 st0 (Event.callbackQuery 123 "edit_pairs")).state
      (Event.callbackQuery 123 "edit_pairs")).state.updated_coins.Nodup := by
  decide

/-- C2 (amended): every operation of the conversation machine other
than `edit_pairs` seeding preserves duplicate-freedom of the working
pair list: any free-text step, any callback whose payload is not
`edit_pairs` (in particular every `x_` removal), and any gated text
command; `edit_pairs` seeding appends the configured list as-is and is
the one operation that can introduce duplicates. -/
theorem C2_nodup_preserved (env : Env) (st : TState) (text payload : String)
    (sender : Int) (token : String)
    (hno : st.updated_coins.Nodup) (hp : payload ≠ "edit_pairs") :
    ((_message_handler env st text).state.updated_coins).Nodup ∧
    ((_callback env st payload).state.updated_coins).Nodup ∧
    ((dispatch env st (Event.cmd sender token text)).state.updated_coins).Nodup := by
  refine ⟨?_, ?_, ?_⟩
  · unfold _message_handler
    split
    · split
      · exact hno
      · rw [_process_config_update_coins]; exact hno
    · split
      · split
        · exact hno
        · rw [_process_config_update_coins]; exact hno
      · split
        · exact _handle_coin_updation_nodup env st text hno
        · exact hno
  · unfold _callback
    split
    · split <;> exact hno
    · split
      · exact hno
      · split
        · exact hno
        · split
          · exact hno
          · split
            · rename_i hcond
              exact absurd (by simpa using hcond) hp
            · split
              · exact remove_coin_branch_nodup env st _ hno
              · exact hno
  · rw [dispatch_cmd_state]; exact hno

/-- C2 witness: the amended preservation theorem at a concrete add
step ("xrp" becomes "XRP", appended to ["ETH", "LTC"]) and a concrete
non-seeding callback. -/
theorem C2_nodup_preserved_witness :
    ((_message_handler env0 stCoins "xrp").state.updated_coins).Nodup ∧
    ((_callback env0 stCoins "x_ETH").state.updated_coins).Nodup ∧
    ((dispatch env0 stCoins
      (Event.cmd 123 "status" "/status")).state.updated_coins).Nodup :=
  C2_nodup_preserved env0 stCoins "xrp" "x_ETH" 123 "status" (by decide)
    (by decide)
